import Mathlib

/-!
# power-sense: the spectrum tick of `src/App.jsx`

A shallow embedding of the component `App` of `src/App.jsx`: the frame
callback `updateChart` (lines 80-177) and the handler `togglePause`
(lines 58-62), followed by the properties of the peak scan, the frequency
conversion, the band classifier, the chart series and the pause gate.

Conventions of the embedding.

* A `Uint8Array` is a `List Nat`; reading `dataArray[i]` is `dataArray[i]?`,
  where `none` stands for the JavaScript value `undefined` of an index past the
  end of the array.
* JavaScript numbers are IEEE-754 doubles. The two products that are rounded
  (`i * 10.7` and `i * sampleRate`) are modelled exactly, as dyadic rationals
  `num / 2 ^ k`, with the round-to-nearest-even step of the multiplication
  (`roundToDouble`) and the round-half-up of `Math.round` (`mathRound`).
* `Math.random()` is an input of the tick: the frame carries the bytes that the
  draws leave in the `Uint8Array`.
* The React state variables read by the callback (`isSimulating`, `freqMode`,
  `status`) are values captured by the closure; they are inputs of the tick
  (`Frame`), distinct from the state cells the tick writes (`AppState`).
-/

namespace PowerSense

/-! ## Numbers -/

/-- Number of binary digits of `n`, by halving (`fuel` bounds the recursion). -/
def bitLengthAux : Nat → Nat → Nat
  | 0, _ => 0
  | fuel + 1, n => if n = 0 then 0 else bitLengthAux fuel (n / 2) + 1

/-- Number of binary digits of `n` (0 for 0). -/
def bitLength (n : Nat) : Nat := bitLengthAux n n

/-- Rounding of a double-precision operation: the natural number `n` (the exact
numerator of a dyadic rational) is rounded to 53 significant bits, to nearest,
ties to even. The scale `2 ^ k` of the rational is unchanged by the rounding. -/
def roundToDouble (n : Nat) : Nat :=
  let e := bitLength n - 53
  let q := n / 2 ^ e
  let r := n % 2 ^ e
  if 2 * r > 2 ^ e ∨ (2 * r = 2 ^ e ∧ q % 2 = 1) then (q + 1) * 2 ^ e else q * 2 ^ e

/-- The function `Math.round` at the non-negative dyadic rational `num / 2 ^ k`:
the integer `⌊num / 2 ^ k + 1/2⌋`. -/
def mathRound (num k : Nat) : Nat := (2 * num + 2 ^ k) / 2 ^ (k + 1)

/-- The double nearest to the literal `10.7` is `tenPointSeven / 2 ^ 48`. -/
def tenPointSeven : Nat := 3011782250804019

/-- The expression `Math.round(i * 10.7)`. -/
def hzSimulated (i : Nat) : Nat := mathRound (roundToDouble (i * tenPointSeven)) 48

/-- The expression `Math.round(i * sampleRate / 4096)` for a sample rate that is
a whole number of hertz (`4096 = 2 ^ 12`, so the division is exact). -/
def hzLive (sampleRate i : Nat) : Nat := mathRound (roundToDouble (i * sampleRate)) 12

/-! ## Display window and frequency conversion -/

/-- The values `setFreqMode` is called with (lines 256-258). -/
inductive FreqMode where
  | ALL
  | ELEC
  | MECH
  deriving DecidableEq, Repr

/-- Lines 83-85: the number of leading bins scanned and displayed. -/
def maxIndexDisplay (freqMode : FreqMode) : Nat :=
  let maxIndexDisplay := 150
  let maxIndexDisplay := if freqMode = FreqMode.ELEC then 40 else maxIndexDisplay
  if freqMode = FreqMode.MECH then 300 else maxIndexDisplay

/-- Lines 113-115, the label `hz` of bin `i`. `audioContext` is
`audioContextRef.current`: `none` for `null`, `some sampleRate` otherwise. -/
def binToHz (isSimulating : Bool) (audioContext : Option Nat) (i : Nat) : Nat :=
  if isSimulating then hzSimulated i
  else
    match audioContext with
    | some sampleRate => hzLive sampleRate i
    | none => i * 10

/-- Lines 127-129, the constant `dominant` computed after the scan. -/
def dominantHz (isSimulating : Bool) (audioContext : Option Nat) (maxIndex : Nat) : Nat :=
  if isSimulating then hzSimulated 240
  else
    match audioContext with
    | some sampleRate => hzLive sampleRate maxIndex
    | none => 0

/-! ## The magnitude buffer -/

/-- Line 96: the loop `for (k = 0; k < n; k++) dataArray[k] = Math.random() * 30`,
where `noise k` is the byte stored by the `k`-th assignment. -/
def fillNoise (noise : Nat → Fin 30) (n : Nat) (dataArray : List Nat) : List Nat :=
  (List.range n).foldl (fun a k => a.set k (noise k).val) dataArray

/-- Lines 95-99: the synthetic buffer. The byte stored in bin 240 by
`dataArray[240] = 200 + (Math.random() * 50)` is `200 + fault`; it ranges over
200..250, since for the largest draws the double sum rounds to 250. -/
def simulatedData (noise : Nat → Fin 30) (fault : Fin 51) : List Nat :=
  let dataArray := List.replicate 2048 10
  let dataArray := fillNoise noise 200 dataArray
  let dataArray := dataArray.set 240 (200 + fault.val)
  let dataArray := dataArray.set 239 150
  dataArray.set 241 150

/-- What a tick reads and does not write. -/
structure Frame where
  /-- The state variable `isSimulating` seen by the callback. -/
  isSimulating : Bool
  /-- The state variable `freqMode` seen by the callback. -/
  freqMode : FreqMode
  /-- The state variable `status` seen by the callback. -/
  status : String
  /-- The sample rate of `audioContextRef.current`, `none` when it is `null`. -/
  audioContext : Option Nat
  /-- The bytes `analyserRef.current.getByteFrequencyData` writes (one for each of
  the `frequencyBinCount` bins), `none` when `analyserRef.current` is `null`. -/
  analyser : Option (List Nat)
  /-- The bytes stored from `Math.random() * 30`. -/
  noise : Nat → Fin 30
  /-- The byte stored in bin 240 from `200 + (Math.random() * 50)`, less 200. -/
  fault : Fin 51

/-- Lines 92-108: the buffer `dataArray` of the tick. -/
def captureData (f : Frame) : List Nat :=
  if f.isSimulating then simulatedData f.noise f.fault
  else
    match f.analyser with
    | some bytes => bytes
    | none => List.replicate 2048 0

/-! ## The scan loop -/

/-- The variables of the loop of lines 111-124. -/
structure Scan where
  labels : List Nat
  dataPoints : List (Option Nat)
  maxVal : Nat
  maxIndex : Nat

/-- One iteration of the loop (lines 112-123). The comparison
`dataArray[i] > maxVal` is false when `dataArray[i]` is `undefined`. -/
def scanStep (hz : Nat → Nat) (dataArray : List Nat) (s : Scan) (i : Nat) : Scan :=
  let s1 : Scan :=
    { s with labels := s.labels ++ [hz i], dataPoints := s.dataPoints ++ [dataArray[i]?] }
  match dataArray[i]? with
  | some v => if v > s.maxVal ∧ i > 5 then { s1 with maxVal := v, maxIndex := i } else s1
  | none => s1

/-- Lines 87-90 and 111-124: the loop over `i = 0 .. maxIndexDisplay - 1`. -/
def scan (hz : Nat → Nat) (dataArray : List Nat) (maxIndexDisplay : Nat) : Scan :=
  (List.range maxIndexDisplay).foldl (scanStep hz dataArray) ⟨[], [], 0, 0⟩

/-! ## Classification -/

/-- The pair written by `setStatus` and `setRecommendation`. -/
structure Classification where
  status : String
  recommendation : String
  deriving DecidableEq, Repr

/-- Lines 131-149: the status and recommendation chosen from the peak value and
the dominant frequency. -/
def classify (maxVal : Nat) (dominant : Int) : Classification :=
  if maxVal > 50 then
    if dominant ≥ 45 ∧ dominant ≤ 110 then
      ⟨"MAINS HUM (NORMAL)", "✅ ปกติ: สัญญาณไฟบ้าน/แม่เหล็กทั่วไป"⟩
    else if dominant > 2000 then
      ⟨"HIGH FREQ FAULT ⚠️", "🔧 คำแนะนำ: ตรวจสอบลูกปืน (Bearings) หรือการเสียดสีของโลหะ"⟩
    else if dominant > 1000 ∧ dominant ≤ 2000 then
      ⟨"MECHANICAL ISSUE", "🔧 คำแนะนำ: ตรวจสอบความหลวมของชิ้นส่วน (Looseness)"⟩
    else
      ⟨"OPERATING", "ℹ️ เครื่องจักรทำงาน (General Operation)"⟩
  else
    ⟨"SILENCE", "รอสัญญาณเสียง..."⟩

/-- The method `String.prototype.includes`: `pat` occurs in `s`. -/
def includes (s pat : String) : Bool :=
  s.toList.tails.any fun t => pat.toList.isPrefixOf t

/-! ## The component state and the tick -/

/-- One entry of `datasets` (lines 153-173), without the constant styling. -/
structure Dataset where
  data : List (Option Nat)
  borderColor : String
  /-- The branch taken by the `backgroundColor` callback: the red gradient. -/
  faultGradient : Bool
  deriving DecidableEq, Repr

/-- The state variable `chartData`. -/
structure ChartData where
  labels : List Nat
  datasets : List Dataset
  deriving DecidableEq, Repr

/-- The cells written by `updateChart` and `togglePause`. -/
structure AppState where
  isPaused : Bool
  isPausedRef : Bool
  peakFreq : Int
  status : String
  recommendation : String
  chartData : ChartData
  deriving DecidableEq, Repr

/-- Lines 87-124 within a tick: the loop run on the tick's buffer, window and
label function. -/
def tickScan (f : Frame) : Scan :=
  scan (binToHz f.isSimulating f.audioContext) (captureData f) (maxIndexDisplay f.freqMode)

/-- Lines 127-129 within a tick: the constant `dominant`. -/
def tickDominant (f : Frame) : Nat :=
  dominantHz f.isSimulating f.audioContext (tickScan f).maxIndex

/-- Lines 82-174: the body of the tick when it is not paused. -/
def pipeline (f : Frame) (s : AppState) : AppState :=
  let sc := tickScan f
  let dominant : Int := tickDominant f
  let c := classify sc.maxVal dominant
  { s with
    peakFreq := if sc.maxVal > 50 then dominant else s.peakFreq
    status := c.status
    recommendation := c.recommendation
    chartData :=
      { labels := sc.labels
        datasets :=
          [{ data := sc.dataPoints
             borderColor := if includes f.status "FAULT" then "#ff3366" else "#00ffcc"
             faultGradient := includes f.status "FAULT" }] } }

/-- Lines 80-177: one tick. The request for the next animation frame is not
part of the state. -/
def updateChart (f : Frame) (s : AppState) : AppState :=
  if !s.isPausedRef then pipeline f s else s

/-- Lines 58-62. -/
def togglePause (s : AppState) : AppState :=
  let newState := !s.isPausedRef
  { s with isPausedRef := newState, isPaused := newState }

/-- A run of ticks, one frame each. -/
def ticks (fs : List Frame) (s : AppState) : AppState :=
  fs.foldl (fun st f => updateChart f st) s

/-- The state of the first render (lines 19-31). -/
def initialState : AppState :=
  { isPaused := false
    isPausedRef := false
    peakFreq := 0
    status := "STANDBY"
    recommendation := "-"
    chartData := { labels := [], datasets := [] } }

/-- Frame of the synthetic source with constant draws. -/
def simFrame (freqMode : FreqMode) (noise : Fin 30) (fault : Fin 51) : Frame :=
  { isSimulating := true
    freqMode := freqMode
    status := "STANDBY"
    audioContext := none
    analyser := none
    noise := fun _ => noise
    fault := fault }

/-- Frame of a live analyser with the given sample rate and bytes. -/
def liveFrame (freqMode : FreqMode) (status : String) (sampleRate : Nat) (bytes : List Nat) :
    Frame :=
  { isSimulating := false
    freqMode := freqMode
    status := status
    audioContext := some sampleRate
    analyser := some bytes
    noise := fun _ => 0
    fault := 0 }

/-- A buffer of 2048 bins, all 0 except `value` at `bin`. -/
def toneBuffer (bin value : Nat) : List Nat := (List.replicate 2048 0).set bin value

/-- The invariant of the loop on `maxVal` and `maxIndex` after the bins below
`n` have been visited. -/
structure PeakInv (d : List Nat) (n : Nat) (s : Scan) : Prop where
  upper : ∀ i v, 5 < i → i < n → d[i]? = some v → v ≤ s.maxVal
  attained : 0 < s.maxVal → 5 < s.maxIndex ∧ s.maxIndex < n ∧ d[s.maxIndex]? = some s.maxVal
  first : ∀ j v, 5 < j → j < s.maxIndex → d[j]? = some v → v < s.maxVal
  zero : s.maxVal = 0 → s.maxIndex = 0

/-! ## The scan loop: what it computes -/

theorem scan_succ (hz : Nat → Nat) (d : List Nat) (n : Nat) :
    scan hz d (n + 1) = scanStep hz d (scan hz d n) n := by
  simp [scan, List.range_succ, List.foldl_append]

theorem scanStep_labels (hz : Nat → Nat) (d : List Nat) (s : Scan) (i : Nat) :
    (scanStep hz d s i).labels = s.labels ++ [hz i] := by
  unfold scanStep
  cases d[i]? with
  | none => rfl
  | some v => dsimp only; split <;> rfl

theorem scanStep_dataPoints (hz : Nat → Nat) (d : List Nat) (s : Scan) (i : Nat) :
    (scanStep hz d s i).dataPoints = s.dataPoints ++ [d[i]?] := by
  unfold scanStep
  cases d[i]? with
  | none => rfl
  | some v => dsimp only; split <;> rfl

theorem scan_labels (hz : Nat → Nat) (d : List Nat) (n : Nat) :
    (scan hz d n).labels = (List.range n).map hz := by
  induction n with
  | zero => rfl
  | succ n ih => rw [scan_succ, scanStep_labels, ih, List.range_succ, List.map_append]; rfl

theorem scan_dataPoints (hz : Nat → Nat) (d : List Nat) (n : Nat) :
    (scan hz d n).dataPoints = (List.range n).map fun i => d[i]? := by
  induction n with
  | zero => rfl
  | succ n ih => rw [scan_succ, scanStep_dataPoints, ih, List.range_succ, List.map_append]; rfl

theorem scan_peakInv (hz : Nat → Nat) (d : List Nat) (n : Nat) : PeakInv d n (scan hz d n) := by
  induction n with
  | zero =>
    refine ⟨?_, ?_, ?_, ?_⟩
    · intro i v _ hi; omega
    · intro h; exact absurd h (Nat.lt_irrefl 0)
    · intro j v _ hj; exact absurd hj (Nat.not_lt_zero j)
    · intro _; rfl
  | succ n ih =>
    rw [scan_succ]
    obtain ⟨hu, ha, hf, hz0⟩ := ih
    generalize scan hz d n = s at hu ha hf hz0
    unfold scanStep
    cases hd : d[n]? with
    | none =>
      dsimp only
      refine ⟨?_, ?_, hf, hz0⟩
      · intro i v h5 hi hv
        rcases Nat.lt_succ_iff_lt_or_eq.mp hi with h | h
        · exact hu i v h5 h hv
        · subst h; rw [hd] at hv; cases hv
      · intro h
        obtain ⟨h1, h2, h3⟩ := ha h
        exact ⟨h1, Nat.lt_succ_of_lt h2, h3⟩
    | some w =>
      dsimp only
      split
      · rename_i hc
        refine ⟨?_, ?_, ?_, ?_⟩
        · intro i v h5 hi hv
          rcases Nat.lt_succ_iff_lt_or_eq.mp hi with h | h
          · exact le_of_lt (lt_of_le_of_lt (hu i v h5 h hv) hc.1)
          · subst h; rw [hd] at hv; cases hv; exact le_refl _
        · intro _; exact ⟨hc.2, Nat.lt_succ_self n, hd⟩
        · intro j v h5 hj hv
          exact lt_of_le_of_lt (hu j v h5 hj hv) hc.1
        · intro h0
          have : w = 0 := h0
          have h1 := hc.1
          omega
      · rename_i hc
        refine ⟨?_, ?_, hf, hz0⟩
        · intro i v h5 hi hv
          rcases Nat.lt_succ_iff_lt_or_eq.mp hi with h | h
          · exact hu i v h5 h hv
          · subst h
            rw [hd] at hv
            cases hv
            by_contra hlt
            exact hc ⟨Nat.lt_of_not_le hlt, h5⟩
        · intro h
          obtain ⟨h1, h2, h3⟩ := ha h
          exact ⟨h1, Nat.lt_succ_of_lt h2, h3⟩


/-! ## The synthetic buffer: its bins -/

theorem fillNoise_succ (noise : Nat → Fin 30) (n : Nat) (a : List Nat) :
    fillNoise noise (n + 1) a = (fillNoise noise n a).set n (noise n).val := by
  simp [fillNoise, List.range_succ, List.foldl_append]

theorem fillNoise_length (noise : Nat → Fin 30) (n : Nat) (a : List Nat) :
    (fillNoise noise n a).length = a.length := by
  induction n with
  | zero => rfl
  | succ n ih => rw [fillNoise_succ, List.length_set, ih]

theorem fillNoise_getElem? (noise : Nat → Fin 30) (n : Nat) (a : List Nat) (i : Nat) :
    (fillNoise noise n a)[i]? =
      if i < n ∧ i < a.length then some (noise i).val else a[i]? := by
  induction n with
  | zero => simp [fillNoise]
  | succ n ih =>
    rw [fillNoise_succ, List.getElem?_set, fillNoise_length, ih]
    by_cases h : n = i
    · subst h
      by_cases hl : n < a.length
      · simp [hl]
      · simp [hl, List.getElem?_eq_none (Nat.le_of_not_lt hl)]
    · have h1 : (i < n + 1 ∧ i < a.length) ↔ (i < n ∧ i < a.length) := by omega
      simp only [h, if_false, h1]

/-- The bins of the synthetic buffer, by index. -/
theorem simulatedData_getElem? (noise : Nat → Fin 30) (fault : Fin 51) (i : Nat) :
    (simulatedData noise fault)[i]? =
      if i = 241 ∨ i = 239 then some 150
      else if i = 240 then some (200 + fault.val)
      else if i < 200 then some (noise i).val
      else if i < 2048 then some 10
      else none := by
  unfold simulatedData
  simp only [List.getElem?_set, List.length_set, fillNoise_length, fillNoise_getElem?,
    List.length_replicate, List.getElem?_replicate]
  split_ifs <;> first | rfl | omega

theorem simulatedData_length (noise : Nat → Fin 30) (fault : Fin 51) :
    (simulatedData noise fault).length = 2048 := by
  simp only [simulatedData, List.length_set, fillNoise_length, List.length_replicate]


/-! ## The classifier -/

theorem classify_silence_of_le (maxVal : Nat) (dominant : Int) (h : maxVal ≤ 50) :
    classify maxVal dominant = ⟨"SILENCE", "รอสัญญาณเสียง..."⟩ := by
  unfold classify
  rw [if_neg (Nat.not_lt.mpr h)]

theorem classify_high_of_gt (maxVal : Nat) (dominant : Int) (h : 50 < maxVal)
    (hd : 2000 < dominant) : (classify maxVal dominant).status = "HIGH FREQ FAULT ⚠️" := by
  unfold classify
  rw [if_pos h, if_neg (by omega), if_pos hd]

/-- C2: for a peak value above 50 the classifier returns exactly one status, by
the ordered bands: MAINS HUM exactly for 45 ≤ dominant ≤ 110, HIGH FREQ FAULT
exactly for dominant > 2000, MECHANICAL ISSUE exactly for 1000 < dominant ≤ 2000,
and OPERATING exactly for dominant < 45 or 110 < dominant ≤ 1000. -/
theorem classify_bands (maxVal : Nat) (dominant : Int) (h : 50 < maxVal) :
    ((classify maxVal dominant).status = "MAINS HUM (NORMAL)" ↔
        45 ≤ dominant ∧ dominant ≤ 110) ∧
      ((classify maxVal dominant).status = "HIGH FREQ FAULT ⚠️" ↔ 2000 < dominant) ∧
      ((classify maxVal dominant).status = "MECHANICAL ISSUE" ↔
        1000 < dominant ∧ dominant ≤ 2000) ∧
      ((classify maxVal dominant).status = "OPERATING" ↔
        dominant < 45 ∨ (110 < dominant ∧ dominant ≤ 1000)) := by
  unfold classify
  rw [if_pos h]
  split_ifs with h1 h2 h3
  · refine ⟨?_, ?_, ?_, ?_⟩ <;> simp <;> omega
  · refine ⟨?_, ?_, ?_, ?_⟩ <;> simp <;> omega
  · refine ⟨?_, ?_, ?_, ?_⟩ <;> simp <;> omega
  · refine ⟨?_, ?_, ?_, ?_⟩ <;> simp <;> omega

/-- Witness of `classify_bands`: one frequency in each band, at peak value 51. -/
theorem classify_bands_witness :
    (classify 51 60).status = "MAINS HUM (NORMAL)" ∧
      (classify 51 2568).status = "HIGH FREQ FAULT ⚠️" ∧
      (classify 51 2000).status = "MECHANICAL ISSUE" ∧
      (classify 51 1000).status = "OPERATING" ∧
      (classify 51 44).status = "OPERATING" :=
  ⟨(classify_bands 51 60 (by decide)).1.mpr (by decide),
    (classify_bands 51 2568 (by decide)).2.1.mpr (by decide),
    (classify_bands 51 2000 (by decide)).2.2.1.mpr (by decide),
    (classify_bands 51 1000 (by decide)).2.2.2.mpr (by decide),
    (classify_bands 51 44 (by decide)).2.2.2.mpr (by decide)⟩

/-- C3: a peak value of at most 50 gives SILENCE with the waiting-for-signal
recommendation whatever the dominant frequency is, and a peak value above 50
never gives SILENCE. -/
theorem classify_silence (maxVal : Nat) (dominant : Int) :
    (maxVal ≤ 50 → classify maxVal dominant = ⟨"SILENCE", "รอสัญญาณเสียง..."⟩) ∧
      (50 < maxVal → (classify maxVal dominant).status ≠ "SILENCE") := by
  constructor
  · intro h
    unfold classify
    rw [if_neg (Nat.not_lt.mpr h)]
  · intro h
    unfold classify
    rw [if_pos h]
    split_ifs <;> decide

/-- Witness of `classify_silence`: peak value 50 inside the mains band and inside
the fault band, and peak value 51. -/
theorem classify_silence_witness :
    (classify 50 60).status = "SILENCE" ∧ (classify 50 2568).status = "SILENCE" ∧
      (classify 51 60).status ≠ "SILENCE" :=
  ⟨congrArg Classification.status ((classify_silence 50 60).1 (by decide)),
    congrArg Classification.status ((classify_silence 50 2568).1 (by decide)),
    (classify_silence 51 60).2 (by decide)⟩


/-! ## The peak detector -/

/-- C5: the scan never selects a bin of the guard band. When some bin `i` with
`5 < i < w` holds a positive value the peak index is above 5, whatever the bins
0..5 hold, and the peak index is never one of 1..5. -/
theorem peak_outside_guard_band (hz : Nat → Nat) (d : List Nat) (w : Nat) :
    (∀ i v, 5 < i → i < w → d[i]? = some v → 0 < v → 5 < (scan hz d w).maxIndex) ∧
      ¬ (1 ≤ (scan hz d w).maxIndex ∧ (scan hz d w).maxIndex ≤ 5) := by
  have inv := scan_peakInv hz d w
  constructor
  · intro i v h5 hw hv hpos
    exact (inv.attained (lt_of_lt_of_le hpos (inv.upper i v h5 hw hv))).1
  · rintro ⟨h1, h2⟩
    rcases Nat.eq_zero_or_pos (scan hz d w).maxVal with h0 | hpos
    · have := inv.zero h0
      omega
    · have := (inv.attained hpos).1
      omega

/-- Witness of `peak_outside_guard_band`: the value 255 at bin 3 is passed over
for the value 7 at bin 7. -/
theorem peak_outside_guard_band_witness :
    5 < (scan (binToHz false none) [0, 0, 0, 255, 0, 0, 0, 7] 40).maxIndex :=
  (peak_outside_guard_band (binToHz false none) [0, 0, 0, 255, 0, 0, 0, 7] 40).1 7 7
    (by decide) (by decide) rfl (by decide)

/-- C6: the scan returns as `maxVal` the maximum of the candidate bins
(`5 < i < w`, inside the buffer), 0 when there is none or all are 0; when that
maximum is positive `maxIndex` is the first candidate bin that holds it, and
when all candidate bins are 0 the result is index 0 with value 0. -/
theorem peak_is_first_maximum (hz : Nat → Nat) (d : List Nat) (w : Nat) :
    (∀ i v, 5 < i → i < w → d[i]? = some v → v ≤ (scan hz d w).maxVal) ∧
      (0 < (scan hz d w).maxVal →
        5 < (scan hz d w).maxIndex ∧ (scan hz d w).maxIndex < w ∧
          d[(scan hz d w).maxIndex]? = some (scan hz d w).maxVal ∧
          ∀ j v, 5 < j → j < (scan hz d w).maxIndex → d[j]? = some v →
            v < (scan hz d w).maxVal) ∧
      ((∀ i v, 5 < i → i < w → d[i]? = some v → v = 0) →
        (scan hz d w).maxIndex = 0 ∧ (scan hz d w).maxVal = 0) := by
  have inv := scan_peakInv hz d w
  refine ⟨inv.upper, ?_, ?_⟩
  · intro hpos
    obtain ⟨h1, h2, h3⟩ := inv.attained hpos
    exact ⟨h1, h2, h3, inv.first⟩
  · intro hall
    have h0 : (scan hz d w).maxVal = 0 := by
      rcases Nat.eq_zero_or_pos (scan hz d w).maxVal with h0 | hpos
      · exact h0
      · obtain ⟨h1, h2, h3⟩ := inv.attained hpos
        exact hall _ _ h1 h2 h3
    exact ⟨inv.zero h0, h0⟩

/-- Witness of `peak_is_first_maximum`: with the maximum 9 at bins 8 and 9 the
scan answers bin 8, and with zeros only it answers bin 0 with value 0. -/
theorem peak_is_first_maximum_witness :
    ((scan (binToHz false none) [0, 0, 0, 255, 0, 0, 0, 7, 9, 9, 3] 40).maxIndex = 8 ∧
        (scan (binToHz false none) [0, 0, 0, 255, 0, 0, 0, 7, 9, 9, 3] 40).maxVal = 9) ∧
      ((scan (binToHz false none) [0, 0, 0, 255, 0, 0, 0, 0] 40).maxIndex = 0 ∧
        (scan (binToHz false none) [0, 0, 0, 255, 0, 0, 0, 0] 40).maxVal = 0) :=
  ⟨by decide,
    (peak_is_first_maximum (binToHz false none) [0, 0, 0, 255, 0, 0, 0, 0] 40).2.2 (by
      intro i v h5 _ hv
      have hi : i < 8 := by
        by_contra hge
        rw [List.getElem?_eq_none (by simpa using hge)] at hv
        cases hv
      interval_cases i <;> simp at hv <;> omega)⟩


/-! ## The series -/

theorem updateChart_running (f : Frame) (s : AppState) (h : s.isPausedRef = false) :
    updateChart f s = pipeline f s := by
  simp [updateChart, h]

theorem tickScan_labels (f : Frame) :
    (tickScan f).labels =
      (List.range (maxIndexDisplay f.freqMode)).map (binToHz f.isSimulating f.audioContext) :=
  scan_labels _ _ _

theorem tickScan_dataPoints (f : Frame) :
    (tickScan f).dataPoints =
      (List.range (maxIndexDisplay f.freqMode)).map fun i => (captureData f)[i]? :=
  scan_dataPoints _ _ _

theorem pipeline_status (f : Frame) (s : AppState) :
    (pipeline f s).status = (classify (tickScan f).maxVal (tickDominant f)).status :=
  rfl

theorem pipeline_peakFreq (f : Frame) (s : AppState) :
    (pipeline f s).peakFreq =
      if (tickScan f).maxVal > 50 then (tickDominant f : Int) else s.peakFreq :=
  rfl

/-- C9: a running tick publishes one dataset whose values are as many as the
labels, and that number is the window of the mode: 150 for ALL, 40 for ELEC, 300
for MECH. -/
theorem series_lengths (f : Frame) (s : AppState) (h : s.isPausedRef = false) :
    (∃ ds, (updateChart f s).chartData.datasets = [ds] ∧
        (updateChart f s).chartData.labels.length = ds.data.length ∧
        ds.data.length = maxIndexDisplay f.freqMode) ∧
      maxIndexDisplay FreqMode.ALL = 150 ∧ maxIndexDisplay FreqMode.ELEC = 40 ∧
      maxIndexDisplay FreqMode.MECH = 300 := by
  rw [updateChart_running f s h]
  refine ⟨⟨_, rfl, ?_, ?_⟩, rfl, rfl, rfl⟩
  · show (tickScan f).labels.length = (tickScan f).dataPoints.length
    rw [tickScan_labels, tickScan_dataPoints, List.length_map, List.length_map]
  · show (tickScan f).dataPoints.length = maxIndexDisplay f.freqMode
    rw [tickScan_dataPoints, List.length_map, List.length_range]

/-- Witness of `series_lengths`: the first tick of the synthetic source in mode
ELEC. -/
theorem series_lengths_witness :
    (∃ ds, (updateChart (simFrame FreqMode.ELEC 3 30) initialState).chartData.datasets = [ds] ∧
        (updateChart (simFrame FreqMode.ELEC 3 30) initialState).chartData.labels.length =
          ds.data.length ∧
        ds.data.length = 40) :=
  (series_lengths (simFrame FreqMode.ELEC 3 30) initialState rfl).1

/-! ## The pause gate -/

theorem updateChart_paused (f : Frame) (s : AppState) (h : s.isPausedRef = true) :
    updateChart f s = s := by
  simp [updateChart, h]

theorem ticks_paused (fs : List Frame) (s : AppState) (h : s.isPausedRef = true) :
    ticks fs s = s := by
  induction fs with
  | nil => rfl
  | cons f fs ih =>
    show ticks fs (updateChart f s) = s
    rw [updateChart_paused f s h]
    exact ih

/-- C10: while the paused flag is set a tick changes nothing of the state
(series, status, recommendation, peak frequency), so any run of ticks over any
frames leaves the state as it was, in particular after `togglePause` on a running
state; and two successive `togglePause` restore the flag. -/
theorem paused_ticks_change_nothing (s : AppState) (fs : List Frame) :
    (s.isPausedRef = true → (∀ f, updateChart f s = s) ∧ ticks fs s = s) ∧
      (s.isPausedRef = false → ticks fs (togglePause s) = togglePause s) ∧
      (togglePause (togglePause s)).isPausedRef = s.isPausedRef ∧
      (togglePause (togglePause s)).isPaused = s.isPausedRef := by
  refine ⟨fun h => ⟨fun f => updateChart_paused f s h, ticks_paused fs s h⟩, ?_, ?_, ?_⟩
  · intro h
    apply ticks_paused
    simp [togglePause, h]
  · simp [togglePause]
  · simp [togglePause]

/-- Witness of `paused_ticks_change_nothing`: after the first synthetic tick and
a pause, ticks over a synthetic and a live frame leave the state as it was. -/
theorem paused_ticks_change_nothing_witness :
    ticks [simFrame FreqMode.MECH 7 49, liveFrame FreqMode.ALL "OPERATING" 48000 [1, 2, 3]]
        (togglePause (updateChart (simFrame FreqMode.MECH 3 30) initialState)) =
      togglePause (updateChart (simFrame FreqMode.MECH 3 30) initialState) :=
  (paused_ticks_change_nothing (updateChart (simFrame FreqMode.MECH 3 30) initialState)
    [simFrame FreqMode.MECH 7 49, liveFrame FreqMode.ALL "OPERATING" 48000 [1, 2, 3]]).2.1 rfl


/-! ## Buffers shorter than the window -/

theorem scanStep_maxVal (hz : Nat → Nat) (d : List Nat) (s : Scan) (i : Nat) :
    (scanStep hz d s i).maxVal =
      if (d[i]?).getD 0 > s.maxVal ∧ i > 5 then (d[i]?).getD 0 else s.maxVal := by
  unfold scanStep
  cases d[i]? with
  | none => simp
  | some v => dsimp only [Option.getD]; split <;> rfl

theorem scanStep_maxIndex (hz : Nat → Nat) (d : List Nat) (s : Scan) (i : Nat) :
    (scanStep hz d s i).maxIndex =
      if (d[i]?).getD 0 > s.maxVal ∧ i > 5 then i else s.maxIndex := by
  unfold scanStep
  cases d[i]? with
  | none => simp
  | some v => dsimp only [Option.getD]; split <;> rfl

/-- The peak found by the scan is the one found when every bin past the end of
the buffer reads 0. -/
theorem scan_peak_pad (hz : Nat → Nat) (d : List Nat) (k n : Nat) :
    (scan hz d n).maxVal = (scan hz (d ++ List.replicate k 0) n).maxVal ∧
      (scan hz d n).maxIndex = (scan hz (d ++ List.replicate k 0) n).maxIndex := by
  induction n with
  | zero => exact ⟨rfl, rfl⟩
  | succ n ih =>
    have hget : (d[n]?).getD 0 = ((d ++ List.replicate k 0)[n]?).getD 0 := by
      by_cases hn : n < d.length
      · rw [List.getElem?_append_left hn]
      · rw [List.getElem?_append_right (Nat.le_of_not_lt hn),
          List.getElem?_eq_none (Nat.le_of_not_lt hn), List.getElem?_replicate]
        split <;> rfl
    rw [scan_succ, scan_succ]
    simp only [scanStep_maxVal, scanStep_maxIndex, ← hget, ← ih.1, ← ih.2, and_self]

/-- C8, the negation at a concrete input: with a live buffer of three bytes in
mode ELEC, the series value at index 3 is undefined, not the magnitude 0. -/
theorem short_buffer_value_not_zero :
    ∃ ds, (updateChart (liveFrame FreqMode.ELEC "STANDBY" 48000 [9, 8, 7])
          initialState).chartData.datasets = [ds] ∧
        ds.data[3]? = some none ∧ ds.data[3]? ≠ some (some 0) :=
  ⟨_, rfl, by decide, by decide⟩

/-- C8, amended: a running tick on a live buffer of any length (shorter than the
window or empty included) produces a series of the window's length whose value
at `i` is `buffer[i]` inside the buffer and undefined past its end; the peak is
the one of the buffer with the missing bins read as 0. -/
theorem short_buffer_series (f : Frame) (s : AppState) (bytes : List Nat)
    (hsim : f.isSimulating = false) (han : f.analyser = some bytes)
    (hrun : s.isPausedRef = false) :
    ∃ ds, (updateChart f s).chartData.datasets = [ds] ∧
      ds.data.length = maxIndexDisplay f.freqMode ∧
      (∀ i v, i < maxIndexDisplay f.freqMode → bytes[i]? = some v →
        ds.data[i]? = some (some v)) ∧
      (∀ i, i < maxIndexDisplay f.freqMode → bytes.length ≤ i → ds.data[i]? = some none) ∧
      (∀ k, (tickScan f).maxVal =
          (scan (binToHz f.isSimulating f.audioContext) (bytes ++ List.replicate k 0)
            (maxIndexDisplay f.freqMode)).maxVal ∧
        (tickScan f).maxIndex =
          (scan (binToHz f.isSimulating f.audioContext) (bytes ++ List.replicate k 0)
            (maxIndexDisplay f.freqMode)).maxIndex) := by
  have hcap : captureData f = bytes := by simp [captureData, hsim, han]
  rw [updateChart_running f s hrun]
  refine ⟨_, rfl, ?_, ?_, ?_, ?_⟩
  · show (tickScan f).dataPoints.length = _
    rw [tickScan_dataPoints, List.length_map, List.length_range]
  · intro i v hi hv
    show (tickScan f).dataPoints[i]? = _
    rw [tickScan_dataPoints, List.getElem?_map, List.getElem?_range hi, hcap]
    simp [hv]
  · intro i hi hlen
    show (tickScan f).dataPoints[i]? = _
    rw [tickScan_dataPoints, List.getElem?_map, List.getElem?_range hi, hcap]
    simp [List.getElem?_eq_none hlen]
  · intro k
    unfold tickScan
    rw [hcap]
    exact scan_peak_pad _ _ _ _

/-- Witness of `short_buffer_series`: the live buffer of three bytes in mode
ELEC. -/
theorem short_buffer_series_witness :
    ∃ ds, (updateChart (liveFrame FreqMode.ELEC "STANDBY" 48000 [9, 8, 7])
          initialState).chartData.datasets = [ds] ∧
      ds.data.length = 40 ∧ ds.data[2]? = some (some 7) ∧ ds.data[39]? = some none := by
  obtain ⟨ds, h1, h2, h3, h4, _⟩ :=
    short_buffer_series (liveFrame FreqMode.ELEC "STANDBY" 48000 [9, 8, 7]) initialState
      [9, 8, 7] rfl rfl rfl
  exact ⟨ds, h1, h2, h3 2 7 (by decide) rfl, h4 39 (by decide) (by decide)⟩


/-! ## A single tone -/

theorem toneBuffer_getElem? (bin value i : Nat) :
    (toneBuffer bin value)[i]? =
      if i < 2048 then (if bin = i then some value else some 0) else none := by
  unfold toneBuffer
  simp only [List.getElem?_set, List.length_replicate, List.getElem?_replicate]
  split_ifs <;> first | rfl | omega

/-- The scan of a single tone above the guard band and inside the window finds
that tone. -/
theorem scan_toneBuffer (hz : Nat → Nat) (bin value w : Nat) (h5 : 5 < bin) (hw : bin < w)
    (hb : bin < 2048) (hv : 0 < value) :
    (scan hz (toneBuffer bin value) w).maxVal = value ∧
      (scan hz (toneBuffer bin value) w).maxIndex = bin := by
  have inv := scan_peakInv hz (toneBuffer bin value) w
  have hbin : (toneBuffer bin value)[bin]? = some value := by
    rw [toneBuffer_getElem?, if_pos hb, if_pos rfl]
  have hle := inv.upper bin value h5 hw hbin
  obtain ⟨_, _, h3⟩ := inv.attained (lt_of_lt_of_le hv hle)
  rw [toneBuffer_getElem?] at h3
  split_ifs at h3 with h1 h2
  · rw [Option.some.injEq] at h3
    exact ⟨h3.symm, h2.symm⟩
  · rw [Option.some.injEq] at h3
    omega

/-! ## The colour of the series -/

/-- The status written by a running tick whose buffer is a single tone. -/
theorem updateChart_tone_status (freqMode : FreqMode) (status : String)
    (sampleRate bin value : Nat) (s : AppState) (hrun : s.isPausedRef = false) (h5 : 5 < bin)
    (hw : bin < maxIndexDisplay freqMode) (hb : bin < 2048) (hv : 0 < value) :
    (updateChart (liveFrame freqMode status sampleRate (toneBuffer bin value)) s).status =
      (classify value (hzLive sampleRate bin : Nat)).status := by
  have hp := scan_toneBuffer (binToHz false (some sampleRate)) bin value
    (maxIndexDisplay freqMode) h5 hw hb hv
  have h1 : (tickScan (liveFrame freqMode status sampleRate (toneBuffer bin value))).maxVal =
      value := hp.1
  have h2 : (tickScan (liveFrame freqMode status sampleRate (toneBuffer bin value))).maxIndex =
      bin := hp.2
  have h3 : tickDominant (liveFrame freqMode status sampleRate (toneBuffer bin value)) =
      hzLive sampleRate bin := by
    unfold tickDominant
    rw [h2]
    rfl
  rw [updateChart_running _ _ hrun, pipeline_status, h1, h3]

/-- The colour test `includes('FAULT')` on the statuses the classifier writes:
only HIGH FREQ FAULT passes it. -/
theorem classify_includes_fault (maxVal : Nat) (dominant : Int) :
    includes (classify maxVal dominant).status "FAULT" = true ↔
      (classify maxVal dominant).status = "HIGH FREQ FAULT ⚠️" := by
  unfold classify
  split_ifs <;> decide

/-- C7, the negation at a concrete input: the first tick of a live loop started
from the first render (status STANDBY, mode ALL) at 48000 Hz, whose only tone is
at bin 100 (1172 Hz), classifies MECHANICAL ISSUE and chooses the normal colour;
the text MECHANICAL ISSUE does not pass the colour test either. -/
theorem mechanical_issue_keeps_normal_colour :
    ∃ ds, (updateChart (liveFrame FreqMode.ALL initialState.status 48000 (toneBuffer 100 200))
          initialState).chartData.datasets = [ds] ∧
        (updateChart (liveFrame FreqMode.ALL initialState.status 48000 (toneBuffer 100 200))
          initialState).status = "MECHANICAL ISSUE" ∧
        ds.faultGradient = false ∧ ds.borderColor = "#00ffcc" ∧
        includes "MECHANICAL ISSUE" "FAULT" = false := by
  have hst := updateChart_tone_status FreqMode.ALL initialState.status 48000 100 200
    initialState rfl (by decide) (by decide) (by decide) (by decide)
  rw [updateChart_running _ _ rfl] at hst ⊢
  refine ⟨_, rfl, ?_, by decide, by decide, by decide⟩
  rw [hst]
  decide

/-- C7, amended: in a running tick of a loop started from the first render
(the callback reads the status STANDBY), a classification other than HIGH FREQ
FAULT never gets the fault colour: MECHANICAL ISSUE, OPERATING, MAINS HUM and
SILENCE keep the normal colour, as the colour test is the text FAULT, which of
the statuses the classifier writes only HIGH FREQ FAULT contains. Nothing is
stated about the colour of a tick classified HIGH FREQ FAULT. -/
theorem fault_colour_only_for_high_freq_fault (f : Frame) (s : AppState)
    (hstart : f.status = initialState.status) (hrun : s.isPausedRef = false)
    (hclass : (updateChart f s).status ≠ "HIGH FREQ FAULT ⚠️") :
    (∃ ds, (updateChart f s).chartData.datasets = [ds] ∧
        ds.faultGradient = false ∧ ds.borderColor = "#00ffcc") ∧
      includes (updateChart f s).status "FAULT" = false ∧
      (∀ maxVal dominant, includes (classify maxVal dominant).status "FAULT" = true ↔
        (classify maxVal dominant).status = "HIGH FREQ FAULT ⚠️") ∧
      includes "MECHANICAL ISSUE" "FAULT" = false := by
  refine ⟨?_, ?_, classify_includes_fault, by decide⟩
  · rw [updateChart_running f s hrun]
    have hinc : includes f.status "FAULT" = false := by
      rw [hstart]
      decide
    refine ⟨_, rfl, hinc, ?_⟩
    show (if includes f.status "FAULT" then "#ff3366" else "#00ffcc") = "#00ffcc"
    rw [hinc]
    rfl
  · rw [updateChart_running f s hrun, pipeline_status] at hclass ⊢
    cases hinc : includes (classify (tickScan f).maxVal (tickDominant f)).status "FAULT" with
    | false => rfl
    | true => exact absurd ((classify_includes_fault _ _).mp hinc) hclass

/-- Witness of `fault_colour_only_for_high_freq_fault`: the first tick of a live
loop at 44100 Hz in mode ALL with a tone at bin 120 (1292 Hz, MECHANICAL
ISSUE). -/
theorem fault_colour_only_for_high_freq_fault_witness :
    (updateChart (liveFrame FreqMode.ALL "STANDBY" 44100 (toneBuffer 120 180))
        initialState).status = "MECHANICAL ISSUE" ∧
      ∃ ds, (updateChart (liveFrame FreqMode.ALL "STANDBY" 44100 (toneBuffer 120 180))
          initialState).chartData.datasets = [ds] ∧
        ds.faultGradient = false ∧ ds.borderColor = "#00ffcc" := by
  have hst : (updateChart (liveFrame FreqMode.ALL "STANDBY" 44100 (toneBuffer 120 180))
      initialState).status = "MECHANICAL ISSUE" := by
    rw [updateChart_tone_status FreqMode.ALL "STANDBY" 44100 120 180 initialState rfl
      (by decide) (by decide) (by decide) (by decide)]
    decide
  exact ⟨hst,
    (fault_colour_only_for_high_freq_fault
      (liveFrame FreqMode.ALL "STANDBY" 44100 (toneBuffer 120 180)) initialState rfl rfl
      (by rw [hst]; decide)).1⟩

/-- The status read by the callback is the one of the render that started the
loop, not the one the tick writes: the first tick of a live loop at 96000 Hz in
mode ALL with a tone at bin 100 (2344 Hz) writes HIGH FREQ FAULT, which passes
the colour test of the status badge (lines 237-239), and its series has the
normal colour. -/
theorem high_freq_fault_tick_has_normal_colour :
    ∃ ds, (updateChart (liveFrame FreqMode.ALL "STANDBY" 96000 (toneBuffer 100 200))
          initialState).chartData.datasets = [ds] ∧
        (updateChart (liveFrame FreqMode.ALL "STANDBY" 96000 (toneBuffer 100 200))
          initialState).status = "HIGH FREQ FAULT ⚠️" ∧
        includes (updateChart (liveFrame FreqMode.ALL "STANDBY" 96000 (toneBuffer 100 200))
          initialState).status "FAULT" = true ∧
        ds.faultGradient = false ∧ ds.borderColor = "#00ffcc" := by
  have hst : (updateChart (liveFrame FreqMode.ALL "STANDBY" 96000 (toneBuffer 100 200))
      initialState).status = "HIGH FREQ FAULT ⚠️" := by
    rw [updateChart_tone_status FreqMode.ALL "STANDBY" 96000 100 200 initialState rfl
      (by decide) (by decide) (by decide) (by decide)]
    decide
  rw [updateChart_running _ _ rfl] at hst ⊢
  refine ⟨_, rfl, hst, ?_, by decide, by decide⟩
  rw [hst]
  decide

/-! ## The synthetic source -/

theorem tickScan_peakInv (f : Frame) :
    PeakInv (captureData f) (maxIndexDisplay f.freqMode) (tickScan f) :=
  scan_peakInv _ _ _

theorem maxIndexDisplay_cases (m : FreqMode) :
    (m = FreqMode.ALL ∧ maxIndexDisplay m = 150) ∨ (m = FreqMode.ELEC ∧ maxIndexDisplay m = 40) ∨
      (m = FreqMode.MECH ∧ maxIndexDisplay m = 300) := by
  cases m
  · exact Or.inl ⟨rfl, rfl⟩
  · exact Or.inr (Or.inl ⟨rfl, rfl⟩)
  · exact Or.inr (Or.inr ⟨rfl, rfl⟩)

theorem captureData_simulating (f : Frame) (hsim : f.isSimulating = true) :
    captureData f = simulatedData f.noise f.fault := by
  simp [captureData, hsim]

theorem hzSimulated_240 : hzSimulated 240 = 2568 := by decide

theorem tickDominant_simulating (f : Frame) (hsim : f.isSimulating = true) :
    tickDominant f = 2568 := by
  unfold tickDominant dominantHz
  rw [if_pos hsim]
  exact hzSimulated_240

/-- Every candidate bin of the synthetic buffer other than 239, 240, 241 is
below 30. -/
theorem simulatedData_quiet (noise : Nat → Fin 30) (fault : Fin 51) (i v : Nat)
    (h : (simulatedData noise fault)[i]? = some v) (h30 : 30 ≤ v) :
    (i = 239 ∧ v = 150) ∨ (i = 240 ∧ v = 200 + fault.val) ∨ (i = 241 ∧ v = 150) := by
  rw [simulatedData_getElem?] at h
  have hn := (noise i).isLt
  split_ifs at h with h1 h2 h3 h4
  · rw [Option.some.injEq] at h
    omega
  · rw [Option.some.injEq] at h
    omega
  · rw [Option.some.injEq] at h
    omega
  · rw [Option.some.injEq] at h
    omega

/-- In the windows that stop before bin 239 the synthetic peak is below 30. -/
theorem tickScan_simulating_quiet (f : Frame) (hsim : f.isSimulating = true)
    (hw : maxIndexDisplay f.freqMode ≤ 239) : (tickScan f).maxVal < 30 := by
  have inv := tickScan_peakInv f
  by_contra hge
  have hge : 30 ≤ (tickScan f).maxVal := Nat.le_of_not_lt hge
  obtain ⟨_, h2, h3⟩ := inv.attained (lt_of_lt_of_le (by decide) hge)
  rw [captureData_simulating f hsim] at h3
  rcases simulatedData_quiet _ _ _ _ h3 hge with h | h | h <;> omega

/-- In a window that contains bin 240 the synthetic peak is bin 240. -/
theorem tickScan_simulating_fault (f : Frame) (hsim : f.isSimulating = true)
    (hw : 240 < maxIndexDisplay f.freqMode) :
    (tickScan f).maxIndex = 240 ∧ (tickScan f).maxVal = 200 + f.fault.val := by
  have inv := tickScan_peakInv f
  have h240 : (captureData f)[240]? = some (200 + f.fault.val) := by
    rw [captureData_simulating f hsim, simulatedData_getElem?]
    simp
  have hle : 200 + f.fault.val ≤ (tickScan f).maxVal := inv.upper 240 _ (by decide) hw h240
  obtain ⟨_, _, h3⟩ := inv.attained (by omega)
  rw [captureData_simulating f hsim] at h3
  rcases simulatedData_quiet _ _ _ _ h3 (by omega) with h | h | h
  · omega
  · exact ⟨h.1, h.2⟩
  · omega

/-- A synthetic peak above 50 is at bin 240. -/
theorem tickScan_simulating_loud (f : Frame) (hsim : f.isSimulating = true)
    (hloud : 50 < (tickScan f).maxVal) : (tickScan f).maxIndex = 240 := by
  by_cases hw : maxIndexDisplay f.freqMode ≤ 239
  · have := tickScan_simulating_quiet f hsim hw
    omega
  · rcases maxIndexDisplay_cases f.freqMode with h | h | h
    · omega
    · omega
    · exact (tickScan_simulating_fault f hsim (by omega)).1

/-- Without analyser and outside the simulation the buffer is all 0 and the scan
stays at bin 0. -/
theorem tickScan_no_device (f : Frame) (hsim : f.isSimulating = false)
    (han : f.analyser = none) : (tickScan f).maxIndex = 0 ∧ (tickScan f).maxVal = 0 := by
  have inv := tickScan_peakInv f
  have hcap : captureData f = List.replicate 2048 0 := by simp [captureData, hsim, han]
  have h0 : (tickScan f).maxVal = 0 := by
    rcases Nat.eq_zero_or_pos (tickScan f).maxVal with h0 | hpos
    · exact h0
    · obtain ⟨_, _, h3⟩ := inv.attained hpos
      rw [hcap, List.getElem?_replicate] at h3
      split_ifs at h3
      rw [Option.some.injEq] at h3
      exact h3.symm
  exact ⟨inv.zero h0, h0⟩


/-- No bin below 150 has the label 2568 in the simulation. -/
theorem hzSimulated_ne_2568 : ∀ i, i < 150 → hzSimulated i ≠ 2568 := by
  intro i hi
  interval_cases i <;> decide

/-- The peak bin lies inside the window (bin 0 when nothing was found). -/
theorem tickScan_maxIndex_lt (f : Frame) : (tickScan f).maxIndex < maxIndexDisplay f.freqMode := by
  have inv := tickScan_peakInv f
  have hpos : 0 < maxIndexDisplay f.freqMode := by
    rcases maxIndexDisplay_cases f.freqMode with h | h | h <;> omega
  rcases Nat.eq_zero_or_pos (tickScan f).maxVal with h0 | h1
  · rw [inv.zero h0]
    exact hpos
  · exact (inv.attained h1).2.1

/-! ## The dominant frequency -/

/-- C1, the negation at a concrete input: in a synthetic tick in mode ELEC with
every noise byte equal to 3 the peak is bin 6, whose label is 64, while the
dominant frequency handed to the classifier is 2568. -/
theorem simulated_dominant_is_not_peak_label :
    (tickScan (simFrame FreqMode.ELEC 3 30)).maxIndex = 6 ∧
      binToHz true none 6 = 64 ∧
      tickDominant (simFrame FreqMode.ELEC 3 30) = 2568 ∧
      tickDominant (simFrame FreqMode.ELEC 3 30) ≠
        binToHz (simFrame FreqMode.ELEC 3 30).isSimulating
          (simFrame FreqMode.ELEC 3 30).audioContext
          (tickScan (simFrame FreqMode.ELEC 3 30)).maxIndex := by
  have inv := tickScan_peakInv (simFrame FreqMode.ELEC 3 30)
  have hcap := captureData_simulating (simFrame FreqMode.ELEC 3 30) rfl
  have hget : ∀ i, 5 < i → i < 40 → (captureData (simFrame FreqMode.ELEC 3 30))[i]? = some 3 := by
    intro i h5 hi
    rw [hcap, simulatedData_getElem?]
    have h1 : ¬ (i = 241 ∨ i = 239) := by omega
    have h2 : ¬ i = 240 := by omega
    have h3 : i < 200 := by omega
    rw [if_neg h1, if_neg h2, if_pos h3]
    rfl
  have hle := inv.upper 6 3 (by decide) (by decide) (hget 6 (by decide) (by decide))
  obtain ⟨a1, a2, a3⟩ := inv.attained (by omega)
  have a2 : (tickScan (simFrame FreqMode.ELEC 3 30)).maxIndex < 40 := a2
  rw [hget _ a1 a2, Option.some.injEq] at a3
  have hidx : (tickScan (simFrame FreqMode.ELEC 3 30)).maxIndex = 6 := by
    by_contra hne
    have := inv.first 6 3 (by decide) (by omega) (hget 6 (by decide) (by decide))
    omega
  have hdom := tickDominant_simulating (simFrame FreqMode.ELEC 3 30) rfl
  refine ⟨hidx, by decide, hdom, ?_⟩
  rw [hidx, hdom]
  decide

/-- C1, amended: when the analyser is absent whenever the audio context is, the
dominant frequency equals the label of the peak bin in every tick outside the
simulation, and in every tick whose peak value is above 50 (the ticks in which
the classifier reads it); in the simulation it is the constant label of bin 240,
2568, whatever the peak bin is, so that in a simulated tick in mode ALL or ELEC,
whose window stops before bin 240, it differs from the label of the peak bin. -/
theorem dominant_is_peak_label (f : Frame) (hdev : f.audioContext = none → f.analyser = none) :
    (f.isSimulating = false →
        tickDominant f = binToHz f.isSimulating f.audioContext (tickScan f).maxIndex) ∧
      (50 < (tickScan f).maxVal →
        tickDominant f = binToHz f.isSimulating f.audioContext (tickScan f).maxIndex) ∧
      (f.isSimulating = true →
        tickDominant f = 2568 ∧ binToHz f.isSimulating f.audioContext 240 = 2568) ∧
      (f.isSimulating = true → f.freqMode ≠ FreqMode.MECH →
        tickDominant f ≠ binToHz f.isSimulating f.audioContext (tickScan f).maxIndex) := by
  have hlive : f.isSimulating = false →
      tickDominant f = binToHz f.isSimulating f.audioContext (tickScan f).maxIndex := by
    intro hsim
    unfold tickDominant dominantHz binToHz
    rw [hsim]
    simp only [Bool.false_eq_true, if_false]
    cases hctx : f.audioContext with
    | some sampleRate => rfl
    | none =>
      show 0 = (tickScan f).maxIndex * 10
      rw [(tickScan_no_device f hsim (hdev hctx)).1]
  refine ⟨hlive, ?_, ?_, ?_⟩
  · intro hloud
    cases hsim : f.isSimulating with
    | false => rw [← hsim]; exact hlive hsim
    | true =>
      rw [tickDominant_simulating f hsim, tickScan_simulating_loud f hsim hloud]
      unfold binToHz
      rw [if_pos rfl]
      exact hzSimulated_240.symm
  · intro hsim
    refine ⟨tickDominant_simulating f hsim, ?_⟩
    unfold binToHz
    rw [if_pos hsim]
    exact hzSimulated_240
  · intro hsim hmode
    have hlt := tickScan_maxIndex_lt f
    have h150 : (tickScan f).maxIndex < 150 := by
      rcases maxIndexDisplay_cases f.freqMode with h | h | h
      · omega
      · omega
      · exact absurd h.1 hmode
    rw [tickDominant_simulating f hsim]
    unfold binToHz
    rw [if_pos hsim]
    exact fun h => hzSimulated_ne_2568 _ h150 h.symm

/-- Witness of `dominant_is_peak_label`: a live tone at bin 100 and the
synthetic source in mode MECH. -/
theorem dominant_is_peak_label_witness :
    tickDominant (liveFrame FreqMode.ALL "STANDBY" 48000 (toneBuffer 100 200)) =
        binToHz false (some 48000)
          (tickScan (liveFrame FreqMode.ALL "STANDBY" 48000 (toneBuffer 100 200))).maxIndex ∧
      tickDominant (simFrame FreqMode.MECH 3 30) =
        binToHz true none (tickScan (simFrame FreqMode.MECH 3 30)).maxIndex :=
  ⟨(dominant_is_peak_label (liveFrame FreqMode.ALL "STANDBY" 48000 (toneBuffer 100 200))
      (fun h => by cases h)).1 rfl,
    (dominant_is_peak_label (simFrame FreqMode.MECH 3 30) (fun _ => rfl)).2.1 (by
      rw [(tickScan_simulating_fault (simFrame FreqMode.MECH 3 30) rfl (by decide)).2]
      decide)⟩


/-! ## The simulated fault -/

/-- C4, the negation at a concrete input: the synthetic tick with bin 240 at 230
and every noise byte equal to 3, in mode ALL, computes the dominant frequency
2568 and classifies SILENCE, not HIGH FREQ FAULT. -/
theorem simulated_fault_is_silent_in_mode_all :
    (captureData (simFrame FreqMode.ALL 3 30))[240]? = some 230 ∧
      tickDominant (simFrame FreqMode.ALL 3 30) = 2568 ∧
      (updateChart (simFrame FreqMode.ALL 3 30) initialState).status = "SILENCE" ∧
      (updateChart (simFrame FreqMode.ALL 3 30) initialState).status ≠ "HIGH FREQ FAULT ⚠️" := by
  have hq := tickScan_simulating_quiet (simFrame FreqMode.ALL 3 30) rfl (by decide)
  have hst : (updateChart (simFrame FreqMode.ALL 3 30) initialState).status = "SILENCE" := by
    rw [updateChart_running _ _ rfl, pipeline_status]
    exact congrArg Classification.status ((classify_silence_of_le _ _ (by omega)))
  refine ⟨?_, tickDominant_simulating _ rfl, hst, ?_⟩
  · rw [captureData_simulating _ rfl, simulatedData_getElem?]
    rfl
  · rw [hst]
    decide

/-- C4, amended: a running synthetic tick computes the dominant frequency 2568 in
every mode; in mode MECH it classifies HIGH FREQ FAULT and publishes 2568 as peak
frequency, and in the modes ALL and ELEC, whose windows stop before bin 240, it
classifies SILENCE and leaves the published peak frequency as it was. -/
theorem simulated_fault_by_mode (f : Frame) (s : AppState) (hsim : f.isSimulating = true)
    (hrun : s.isPausedRef = false) :
    tickDominant f = 2568 ∧
      (f.freqMode = FreqMode.MECH →
        (updateChart f s).status = "HIGH FREQ FAULT ⚠️" ∧ (updateChart f s).peakFreq = 2568) ∧
      (f.freqMode ≠ FreqMode.MECH →
        (updateChart f s).status = "SILENCE" ∧ (updateChart f s).peakFreq = s.peakFreq) := by
  have hdom := tickDominant_simulating f hsim
  rw [updateChart_running f s hrun, pipeline_status, pipeline_peakFreq, hdom]
  refine ⟨rfl, ?_, ?_⟩
  · intro hm
    have hw : 240 < maxIndexDisplay f.freqMode := by rw [hm]; decide
    have hv := (tickScan_simulating_fault f hsim hw).2
    have hloud : 50 < (tickScan f).maxVal := by omega
    refine ⟨classify_high_of_gt _ _ hloud (by decide), ?_⟩
    rw [if_pos hloud]
    rfl
  · intro hm
    have hw : maxIndexDisplay f.freqMode ≤ 239 := by
      rcases maxIndexDisplay_cases f.freqMode with h | h | h
      · omega
      · omega
      · exact absurd h.1 hm
    have hq := tickScan_simulating_quiet f hsim hw
    refine ⟨congrArg Classification.status (classify_silence_of_le _ _ (by omega)), ?_⟩
    rw [if_neg (by omega)]

/-- Witness of `simulated_fault_by_mode`: the synthetic tick with bin 240 at 230
in mode MECH. -/
theorem simulated_fault_by_mode_witness :
    (updateChart (simFrame FreqMode.MECH 3 30) initialState).status = "HIGH FREQ FAULT ⚠️" ∧
      (updateChart (simFrame FreqMode.MECH 3 30) initialState).peakFreq = 2568 :=
  (simulated_fault_by_mode (simFrame FreqMode.MECH 3 30) initialState rfl rfl).2.1 rfl

end PowerSense
